import Mathlib

/-!
Verification of the address-matching core of the `where` repository
(src/data.rs): the canonical `Address` model, the coincidence comparator
`Address.coincident`, label rendering `Address.label`, the `Mismatch`
taxonomy, and the classifier `MatchRecords.new`.

The enumerated component types (`StreetNamePreDirectional`,
`StreetNamePostType`, `SubaddressType`, `AddressStatus`) live in the
repository's `address_components` module, which is not part of the two
source files; they are modelled from the spec as closed enumerations with
total equality (spec section 3 and section 9), with the variant names the
spec and its examples use. All other definitions are translated directly
from src/data.rs.
-/

/-- Modelled from the spec: `address_components::StreetNamePreDirectional`,
a closed enumeration of street pre-directionals ("e.g. N/S/E/W"),
absence modelled with `Option`. -/
inductive StreetNamePreDirectional where
  | North
  | South
  | East
  | West
deriving DecidableEq, Repr

/-- Modelled from the spec: `address_components::StreetNamePostType`,
a closed enumeration of street post-types ("e.g. Street/Avenue/Court"). -/
inductive StreetNamePostType where
  | Street
  | Avenue
  | Court
deriving DecidableEq, Repr

/-- Modelled from the spec: `address_components::SubaddressType`,
a closed enumeration of subaddress types; the spec's label-rendering
example uses the variant `Apartment`. -/
inductive SubaddressType where
  | Apartment
  | Suite
  | Unit
deriving DecidableEq, Repr

/-- Modelled from the spec: `address_components::AddressStatus`,
a closed enumeration of address statuses ("e.g. Active/Retired/Pending"). -/
inductive AddressStatus where
  | Active
  | Retired
  | Pending
deriving DecidableEq, Repr

/-- Rust `Debug` rendering (`{:?}`) of a pre-directional: the variant name. -/
def StreetNamePreDirectional.fmtDebug : StreetNamePreDirectional → String
  | .North => "North"
  | .South => "South"
  | .East => "East"
  | .West => "West"

/-- Rust `Debug` rendering (`{:?}`) of a post-type: the variant name. -/
def StreetNamePostType.fmtDebug : StreetNamePostType → String
  | .Street => "Street"
  | .Avenue => "Avenue"
  | .Court => "Court"

/-- Rust `Debug` rendering (`{:?}`) of a subaddress type: the variant name. -/
def SubaddressType.fmtDebug : SubaddressType → String
  | .Apartment => "Apartment"
  | .Suite => "Suite"
  | .Unit => "Unit"

/-- Rust `Debug` rendering (`{:?}`) of a status: the variant name. -/
def AddressStatus.fmtDebug : AddressStatus → String
  | .Active => "Active"
  | .Retired => "Retired"
  | .Pending => "Pending"

/-- Rust `Debug` rendering of an `Option<T>`: `Some(..)` or `None`. -/
def fmtDebugOpt {α : Type} (f : α → String) : Option α → String
  | some x => "Some(" ++ f x ++ ")"
  | none => "None"

/-- Rust `Debug` rendering of an `i64` (plain decimal digits). -/
def fmtDebugInt (n : Int) : String := toString n

/-- Rust `Debug` rendering of a `String`: the text between double quotes.
(Escaping of special characters inside the text is not modelled; the
inputs considered here contain none.) -/
def fmtDebugString (s : String) : String := "\"" ++ s ++ "\""

/-- The canonical address record, translated from `struct Address`
(src/data.rs lines 5-21). Rust `i64` fields are modelled as `Int`. -/
structure Address where
  address_number : Int
  address_number_suffix : Option String
  street_name_pre_directional : Option StreetNamePreDirectional
  street_name : String
  street_name_post_type : StreetNamePostType
  subaddress_type : Option SubaddressType
  subaddress_identifier : Option String
  floor : Option Int
  building : Option String
  zip_code : Int
  postal_community : String
  state_name : String
  status : AddressStatus
  object_id : Int
deriving DecidableEq, Repr

/-- Translated from `enum Mismatch` (src/data.rs lines 135-140): a tagged
rendered message for a disagreement on one secondary attribute. -/
inductive Mismatch where
  | SubaddressType (message : String)
  | Floor (message : String)
  | Building (message : String)
  | Status (message : String)
deriving DecidableEq, Repr

/-- Abbreviation used so that the field type resolves to the component
enumeration, not to the `Mismatch` constructor of the same name. -/
abbrev OptionSubaddressType := Option SubaddressType

/-- Translated from `Mismatch::subaddress_type` (src/data.rs lines 143-146). -/
def Mismatch.subaddress_type (f t : OptionSubaddressType) : Mismatch :=
  Mismatch.SubaddressType
    (fmtDebugOpt SubaddressType.fmtDebug f ++ " not equal to "
      ++ fmtDebugOpt SubaddressType.fmtDebug t)

/-- Translated from `Mismatch::floor` (src/data.rs lines 148-151). -/
def Mismatch.floor (f t : Option Int) : Mismatch :=
  Mismatch.Floor
    (fmtDebugOpt fmtDebugInt f ++ " not equal to " ++ fmtDebugOpt fmtDebugInt t)

/-- Translated from `Mismatch::building` (src/data.rs lines 153-156). -/
def Mismatch.building (f t : Option String) : Mismatch :=
  Mismatch.Building
    (fmtDebugOpt fmtDebugString f ++ " not equal to "
      ++ fmtDebugOpt fmtDebugString t)

/-- Translated from `Mismatch::status` (src/data.rs lines 158-161). -/
def Mismatch.status (f t : AddressStatus) : Mismatch :=
  Mismatch.Status (f.fmtDebug ++ " not equal to " ++ t.fmtDebug)

/-- Translated from `struct Mismatches` (src/data.rs lines 164-166). -/
structure Mismatches where
  fields : List Mismatch
deriving DecidableEq, Repr

/-- Translated from `Mismatches::new` (src/data.rs lines 169-171). -/
def Mismatches.new (fields : List Mismatch) : Mismatches :=
  { fields := fields }

/-- Translated from `struct AddressMatch` (src/data.rs lines 174-177). -/
structure AddressMatch where
  coincident : Bool
  mismatches : Option Mismatches
deriving DecidableEq, Repr

/-- Translated from `AddressMatch::new` (src/data.rs lines 180-189):
an empty mismatch vector is stored as `none`. -/
def AddressMatch.new (coincident : Bool) (fields : List Mismatch) : AddressMatch :=
  let mismatches := match fields.length with
    | 0 => none
    | _ + 1 => some (Mismatches.new fields)
  { coincident := coincident, mismatches := mismatches }

/-- Translated from `Address::coincident` (src/data.rs lines 24-55):
nine identity fields are conjoined; when they all agree the four secondary
fields are each compared and a `Mismatch` is pushed per disagreement. -/
def Address.coincident (self : Address) (other : Address) : AddressMatch :=
  let mismatches : List Mismatch := []
  if self.address_number = other.address_number
      ∧ self.address_number_suffix = other.address_number_suffix
      ∧ self.street_name_pre_directional = other.street_name_pre_directional
      ∧ self.street_name = other.street_name
      ∧ self.street_name_post_type = other.street_name_post_type
      ∧ self.subaddress_identifier = other.subaddress_identifier
      ∧ self.zip_code = other.zip_code
      ∧ self.postal_community = other.postal_community
      ∧ self.state_name = other.state_name then
    let mismatches := if self.subaddress_type ≠ other.subaddress_type then
        mismatches ++ [Mismatch.subaddress_type self.subaddress_type other.subaddress_type]
      else mismatches
    let mismatches := if self.floor ≠ other.floor then
        mismatches ++ [Mismatch.floor self.floor other.floor]
      else mismatches
    let mismatches := if self.building ≠ other.building then
        mismatches ++ [Mismatch.building self.building other.building]
      else mismatches
    let mismatches := if self.status ≠ other.status then
        mismatches ++ [Mismatch.status self.status other.status]
      else mismatches
    AddressMatch.new true mismatches
  else
    AddressMatch.new false mismatches

/-- Translated from `Address::label` (src/data.rs lines 57-85):
the human-readable reconstruction of the address. -/
def Address.label (self : Address) : String :=
  let complete_address_number := match self.address_number_suffix with
    | some suffix => toString self.address_number ++ " " ++ suffix
    | none => toString self.address_number
  let complete_street_name := match self.street_name_pre_directional with
    | some pre_directional =>
        pre_directional.fmtDebug ++ " " ++ self.street_name ++ " "
          ++ self.street_name_post_type.fmtDebug
    | none => self.street_name ++ " " ++ self.street_name_post_type.fmtDebug
  let complete_subaddress := match self.subaddress_identifier with
    | some identifier => match self.subaddress_type with
      | some st => some (st.fmtDebug ++ " " ++ identifier)
      | none => some ("#" ++ identifier)
    | none => self.subaddress_type.map (fun st => st.fmtDebug)
  match complete_subaddress with
  | some subaddress =>
      complete_address_number ++ " " ++ complete_street_name ++ " " ++ subaddress
  | none => complete_address_number ++ " " ++ complete_street_name

/-- Translated from `enum MatchStatus` (src/data.rs lines 193-197). -/
inductive MatchStatus where
  | Matching
  | Divergent
  | Missing
deriving DecidableEq, Repr

/-- Translated from `struct MatchRecord` (src/data.rs lines 200-209). -/
structure MatchRecord where
  match_status : MatchStatus
  address_label : String
  self_id : Int
  other_id : Option Int
  subaddress_type : Option String
  floor : Option String
  building : Option String
  status : Option String
deriving DecidableEq, Repr

/-- Translated from `struct MatchRecords` (src/data.rs lines 211-213). -/
structure MatchRecords where
  records : List MatchRecord
deriving DecidableEq, Repr

/-- The inner loop of `MatchRecords::new` over a divergent candidate's
mismatch list (src/data.rs lines 247-256): each `Mismatch` variant sets the
corresponding rendered field (subaddress type, floor, building, status),
all four starting at `None`. -/
def mismatchRender (fields : List Mismatch) :
    Option String × Option String × Option String × Option String :=
  fields.foldl
    (fun acc mismatch =>
      match mismatch with
      | Mismatch.SubaddressType message => (some message, acc.2.1, acc.2.2.1, acc.2.2.2)
      | Mismatch.Floor message => (acc.1, some message, acc.2.2.1, acc.2.2.2)
      | Mismatch.Building message => (acc.1, acc.2.1, some message, acc.2.2.2)
      | Mismatch.Status message => (acc.1, acc.2.1, acc.2.2.1, some message))
    (none, none, none, none)

/-- The body of the candidate loop of `MatchRecords::new`
(src/data.rs lines 226-271), factored out as a function of the
accumulated record list and one candidate: a candidate that fails
conversion or is not coincident leaves the accumulator unchanged; a
coincident candidate appends one Matching or Divergent record. -/
def matchStep {β : Type} (self_address : Address) (self_id : Int)
    (address_label : String) (tryInto : β → Option Address)
    (match_record : List MatchRecord) (address : β) : List MatchRecord :=
  match tryInto address with
  | some other =>
    let address_match := self_address.coincident other
    if address_match.coincident then
      let other_id := some other.object_id
      match address_match.mismatches with
      | none =>
        match_record ++ [MatchRecord.mk MatchStatus.Matching address_label
          self_id other_id none none none none]
      | some mismatches =>
        let fields := mismatchRender mismatches.fields
        match_record ++ [MatchRecord.mk MatchStatus.Divergent address_label
          self_id other_id fields.1 fields.2.1 fields.2.2.1 fields.2.2.2]
    else match_record
  | none => match_record

/-- Translated from `MatchRecords::new` (src/data.rs lines 216-288).
The Rust function is generic over `A: Into<Address>` and
`B: TryInto<Address>`; the conversions are passed explicitly, with
`tryInto` returning `Option Address` for the fallible conversion. The
for-loop over the candidates is a fold of `matchStep`. -/
def MatchRecords.new {α β : Type} (into : α → Address) (tryInto : β → Option Address)
    (self_address : α) (other_addresses : List β) : MatchRecords :=
  let self_address : Address := into self_address
  let self_id := self_address.object_id
  let address_label := self_address.label
  let match_record := other_addresses.foldl
    (matchStep self_address self_id address_label tryInto) []
  if match_record.isEmpty then
    { records := [MatchRecord.mk MatchStatus.Missing address_label self_id
        none none none none none] }
  else
    { records := match_record }

/-- Translated from `struct CountyAddress` (src/data.rs lines 391-439).
Rust `i64` is modelled as `Int` and `f64` as `Float`; the serde column
renaming is input-adapter concern and not modelled. -/
structure CountyAddress where
  object_id : Int
  taxlot : Option String
  address_number : Int
  address_number_suffix : Option String
  street_name_pre_directional : Option StreetNamePreDirectional
  street_name : String
  street_name_post_type : Option StreetNamePostType
  subaddress_type : Option SubaddressType
  subaddress_identifier : Option String
  floor : Option Int
  complete_street_address : String
  postal_community : String
  zip_code : Int
  state_name : String
  status : AddressStatus
  point_y : Option Float
  point_x : Option Float

/-- Translated from `impl TryFrom<CountyAddress> for Address`
(src/data.rs lines 109-133): conversion succeeds exactly when the county
record's street-name post-type is present; `Err(())` is modelled as
`none`. The canonical `building` field is set to `None` because the county
schema has no building column. -/
def Address.tryFromCounty (item : CountyAddress) : Option Address :=
  match item.street_name_post_type with
  | some post_type => some
      { address_number := item.address_number
        address_number_suffix := item.address_number_suffix
        street_name_pre_directional := item.street_name_pre_directional
        street_name := item.street_name
        street_name_post_type := post_type
        subaddress_type := item.subaddress_type
        subaddress_identifier := item.subaddress_identifier
        floor := item.floor
        building := none
        zip_code := item.zip_code
        postal_community := item.postal_community
        state_name := item.state_name
        status := item.status
        object_id := item.object_id }
  | none => none

/-- The conjunction of the nine identity-field equalities checked by
`Address::coincident` (src/data.rs lines 27-35), as a predicate. -/
def identityMatch (a b : Address) : Prop :=
  a.address_number = b.address_number
  ∧ a.address_number_suffix = b.address_number_suffix
  ∧ a.street_name_pre_directional = b.street_name_pre_directional
  ∧ a.street_name = b.street_name
  ∧ a.street_name_post_type = b.street_name_post_type
  ∧ a.subaddress_identifier = b.subaddress_identifier
  ∧ a.zip_code = b.zip_code
  ∧ a.postal_community = b.postal_community
  ∧ a.state_name = b.state_name

instance (a b : Address) : Decidable (identityMatch a b) := by
  unfold identityMatch; infer_instance

/-- The mismatch list stored in an `AddressMatch` (`None` stands for the
empty vector, per `AddressMatch::new`). -/
def mismatchFields (am : AddressMatch) : List Mismatch :=
  match am.mismatches with
  | none => []
  | some mismatches => mismatches.fields

/-- The four independent secondary-field comparisons of
`Address::coincident` (src/data.rs lines 38-52), written as a
concatenation of zero-or-one-element lists in the push order of the
source: subaddress type, floor, building, status. -/
def secondaryMismatches (a b : Address) : List Mismatch :=
  (if a.subaddress_type ≠ b.subaddress_type then
    [Mismatch.subaddress_type a.subaddress_type b.subaddress_type] else [])
  ++ (if a.floor ≠ b.floor then [Mismatch.floor a.floor b.floor] else [])
  ++ (if a.building ≠ b.building then [Mismatch.building a.building b.building] else [])
  ++ (if a.status ≠ b.status then [Mismatch.status a.status b.status] else [])

/-- The four secondary-field categories, without the rendered message. -/
inductive MismatchKind where
  | SubaddressType
  | Floor
  | Building
  | Status
deriving DecidableEq, Repr

/-- The category of a `Mismatch`, forgetting the rendered message. -/
def Mismatch.kind : Mismatch → MismatchKind
  | Mismatch.SubaddressType _ => MismatchKind.SubaddressType
  | Mismatch.Floor _ => MismatchKind.Floor
  | Mismatch.Building _ => MismatchKind.Building
  | Mismatch.Status _ => MismatchKind.Status

/-- The record that one candidate contributes in the loop of
`MatchRecords::new` (src/data.rs lines 226-271): `none` when the
candidate fails conversion or is not coincident, otherwise the Matching
or Divergent record it appends. -/
def candidateRecord {β : Type} (self_address : Address) (self_id : Int)
    (address_label : String) (tryInto : β → Option Address)
    (address : β) : Option MatchRecord :=
  match tryInto address with
  | some other =>
    let address_match := self_address.coincident other
    if address_match.coincident then
      match address_match.mismatches with
      | none => some (MatchRecord.mk MatchStatus.Matching address_label
          self_id (some other.object_id) none none none none)
      | some mismatches =>
        let fields := mismatchRender mismatches.fields
        some (MatchRecord.mk MatchStatus.Divergent address_label self_id
          (some other.object_id) fields.1 fields.2.1 fields.2.2.1 fields.2.2.2)
    else none
  | none => none

/-- The `Missing` record emitted by `MatchRecords::new` when no candidate
produced a record (src/data.rs lines 272-283). -/
def missingRecord (self : Address) : MatchRecord :=
  MatchRecord.mk MatchStatus.Missing self.label self.object_id none
    none none none none

/-- The record-list shape asserted by claim C2: a single Matching record,
or one-or-more Divergent records, or exactly one Missing record. -/
def claimedShape (rs : List MatchRecord) : Prop :=
  (rs.length = 1 ∧ ∀ r ∈ rs, r.match_status = MatchStatus.Matching)
  ∨ (rs ≠ [] ∧ ∀ r ∈ rs, r.match_status = MatchStatus.Divergent)
  ∨ (rs.length = 1 ∧ ∀ r ∈ rs, r.match_status = MatchStatus.Missing)

instance (rs : List MatchRecord) : Decidable (claimedShape rs) := by
  unfold claimedShape; infer_instance

/-- The label composition exactly as the spec words it (spec section 4.1):
a number part (house number optionally followed by its suffix), a street
part (pre-directional when present, street name, post-type,
space-separated), and a subaddress part that is the type name plus the
identifier when both exist, `#` plus the identifier when only the
identifier exists, the type alone when only the type exists, and is
omitted entirely when neither exists. -/
def specLabel (a : Address) : String :=
  let numberPart := match a.address_number_suffix with
    | some suffix => toString a.address_number ++ " " ++ suffix
    | none => toString a.address_number
  let streetPart := match a.street_name_pre_directional with
    | some pre => pre.fmtDebug ++ " " ++ a.street_name ++ " "
        ++ a.street_name_post_type.fmtDebug
    | none => a.street_name ++ " " ++ a.street_name_post_type.fmtDebug
  let subaddressPart : Option String :=
    match a.subaddress_type, a.subaddress_identifier with
    | some st, some identifier => some (st.fmtDebug ++ " " ++ identifier)
    | none, some identifier => some ("#" ++ identifier)
    | some st, none => some st.fmtDebug
    | none, none => none
  match subaddressPart with
  | some subaddress => numberPart ++ " " ++ streetPart ++ " " ++ subaddress
  | none => numberPart ++ " " ++ streetPart

/-- A concrete canonical address used in witnesses and counterexamples. -/
def exAddress : Address :=
  { address_number := 1
    address_number_suffix := none
    street_name_pre_directional := none
    street_name := "MAIN"
    street_name_post_type := StreetNamePostType.Street
    subaddress_type := none
    subaddress_identifier := none
    floor := none
    building := none
    zip_code := 97526
    postal_community := "GRANTS PASS"
    state_name := "OR"
    status := AddressStatus.Active
    object_id := 1 }

/-- `exAddress` with a different object id: coincident with `exAddress`
and equal on all four secondary fields. -/
def exAddressId2 : Address := { exAddress with object_id := 2 }

/-- `exAddress` with a different status: coincident with `exAddress` and
divergent exactly in the status field. -/
def exAddressRetired : Address :=
  { exAddress with status := AddressStatus.Retired, object_id := 3 }

/-- A second status-divergent copy of `exAddress`. -/
def exAddressPending : Address :=
  { exAddress with status := AddressStatus.Pending, object_id := 4 }

/-- The concrete address of the spec's label-rendering example: house
number 123, suffix "A", no pre-directional, street "MAIN", post-type
Street, subaddress type Apartment, identifier "4". -/
def labelExample : Address :=
  { address_number := 123
    address_number_suffix := some "A"
    street_name_pre_directional := none
    street_name := "MAIN"
    street_name_post_type := StreetNamePostType.Street
    subaddress_type := some SubaddressType.Apartment
    subaddress_identifier := some "4"
    floor := none
    building := none
    zip_code := 97526
    postal_community := "GRANTS PASS"
    state_name := "OR"
    status := AddressStatus.Active
    object_id := 1 }

/-- A concrete county record whose street-name post-type is absent, so
its conversion to `Address` fails. -/
def exCountyNoPost : CountyAddress :=
  { object_id := 7
    taxlot := none
    address_number := 1
    address_number_suffix := none
    street_name_pre_directional := none
    street_name := "MAIN"
    street_name_post_type := none
    subaddress_type := none
    subaddress_identifier := none
    floor := none
    complete_street_address := "1 MAIN ST"
    postal_community := "GRANTS PASS"
    zip_code := 97526
    state_name := "OR"
    status := AddressStatus.Active
    point_y := none
    point_x := none }

/-! ## Helper lemmas -/

theorem coincident_of_new (c : Bool) (fs : List Mismatch) :
    (AddressMatch.new c fs).coincident = c := rfl

theorem mismatchFields_new (c : Bool) (fs : List Mismatch) :
    mismatchFields (AddressMatch.new c fs) = fs := by
  cases fs <;> rfl

theorem coincident_eq (a b : Address) :
    a.coincident b =
      if identityMatch a b then AddressMatch.new true (secondaryMismatches a b)
      else AddressMatch.new false [] := by
  unfold Address.coincident identityMatch secondaryMismatches
  split
  next h =>
    by_cases h1 : a.subaddress_type = b.subaddress_type <;>
      by_cases h2 : a.floor = b.floor <;>
        by_cases h3 : a.building = b.building <;>
          by_cases h4 : a.status = b.status <;>
            simp [h, h1, h2, h3, h4]
  next h => simp [h]

theorem matchStep_eq {β : Type} (self_address : Address) (self_id : Int)
    (address_label : String) (tryInto : β → Option Address)
    (match_record : List MatchRecord) (address : β) :
    matchStep self_address self_id address_label tryInto match_record address
      = match_record
        ++ (candidateRecord self_address self_id address_label tryInto address).toList := by
  unfold matchStep candidateRecord
  cases h : tryInto address with
  | none => simp
  | some other =>
    cases hc : (self_address.coincident other).coincident with
    | false => simp [hc]
    | true =>
      cases hm : (self_address.coincident other).mismatches <;> simp [hc, hm]

theorem foldl_matchStep_eq {β : Type} (self_address : Address) (self_id : Int)
    (address_label : String) (tryInto : β → Option Address)
    (cs : List β) (acc : List MatchRecord) :
    cs.foldl (matchStep self_address self_id address_label tryInto) acc
      = acc ++ cs.filterMap
          (candidateRecord self_address self_id address_label tryInto) := by
  induction cs generalizing acc with
  | nil => simp
  | cons c cs ih =>
    rw [List.foldl_cons, matchStep_eq, ih, List.filterMap_cons]
    cases candidateRecord self_address self_id address_label tryInto c <;> simp

theorem new_records_eq {α β : Type} (into : α → Address)
    (tryInto : β → Option Address) (sa : α) (cs : List β) :
    (MatchRecords.new into tryInto sa cs).records =
      if (cs.filterMap (candidateRecord (into sa) (into sa).object_id
            (into sa).label tryInto)).isEmpty then
        [missingRecord (into sa)]
      else
        cs.filterMap (candidateRecord (into sa) (into sa).object_id
          (into sa).label tryInto) := by
  simp only [MatchRecords.new]
  rw [foldl_matchStep_eq, List.nil_append]
  split <;> simp [missingRecord]

theorem identityMatch_symm (a b : Address) : identityMatch a b ↔ identityMatch b a := by
  unfold identityMatch
  constructor <;>
    · rintro ⟨h1, h2, h3, h4, h5, h6, h7, h8, h9⟩
      exact ⟨h1.symm, h2.symm, h3.symm, h4.symm, h5.symm, h6.symm, h7.symm,
        h8.symm, h9.symm⟩

theorem secondaryMismatches_kind_symm (a b : Address) :
    (secondaryMismatches a b).map Mismatch.kind
      = (secondaryMismatches b a).map Mismatch.kind := by
  unfold secondaryMismatches
  by_cases h1 : a.subaddress_type = b.subaddress_type <;>
    by_cases h2 : a.floor = b.floor <;>
      by_cases h3 : a.building = b.building <;>
        by_cases h4 : a.status = b.status <;>
          simp [h1, h2, h3, h4, ne_comm, Mismatch.kind, Mismatch.subaddress_type,
            Mismatch.floor, Mismatch.building, Mismatch.status]

theorem secondaryMismatches_eq_nil (a b : Address)
    (h1 : a.subaddress_type = b.subaddress_type) (h2 : a.floor = b.floor)
    (h3 : a.building = b.building) (h4 : a.status = b.status) :
    secondaryMismatches a b = [] := by
  unfold secondaryMismatches
  simp [h1, h2, h3, h4]

theorem secondaryMismatches_status_only (a b : Address)
    (h1 : a.subaddress_type = b.subaddress_type) (h2 : a.floor = b.floor)
    (h3 : a.building = b.building) (h4 : a.status ≠ b.status) :
    secondaryMismatches a b = [Mismatch.status a.status b.status] := by
  unfold secondaryMismatches
  simp [h1, h2, h3, h4]

theorem candidateRecord_conv_fail {β : Type} (self_address : Address)
    (self_id : Int) (address_label : String) (tryInto : β → Option Address)
    (address : β) (ht : tryInto address = none) :
    candidateRecord self_address self_id address_label tryInto address = none := by
  unfold candidateRecord
  rw [ht]

theorem candidateRecord_not_coincident {β : Type} (self_address : Address)
    (self_id : Int) (address_label : String) (tryInto : β → Option Address)
    (address : β) (other : Address) (ht : tryInto address = some other)
    (hid : ¬ identityMatch self_address other) :
    candidateRecord self_address self_id address_label tryInto address = none := by
  unfold candidateRecord
  rw [ht]
  simp [coincident_eq, if_neg hid, AddressMatch.new]

theorem candidateRecord_matching {β : Type} (self_address : Address)
    (self_id : Int) (address_label : String) (tryInto : β → Option Address)
    (address : β) (other : Address) (ht : tryInto address = some other)
    (hid : identityMatch self_address other)
    (h1 : self_address.subaddress_type = other.subaddress_type)
    (h2 : self_address.floor = other.floor)
    (h3 : self_address.building = other.building)
    (h4 : self_address.status = other.status) :
    candidateRecord self_address self_id address_label tryInto address
      = some (MatchRecord.mk MatchStatus.Matching address_label self_id
          (some other.object_id) none none none none) := by
  unfold candidateRecord
  rw [ht]
  simp [coincident_eq, if_pos hid,
    secondaryMismatches_eq_nil self_address other h1 h2 h3 h4, AddressMatch.new]

theorem candidateRecord_status_divergent {β : Type} (self_address : Address)
    (self_id : Int) (address_label : String) (tryInto : β → Option Address)
    (address : β) (other : Address) (ht : tryInto address = some other)
    (hid : identityMatch self_address other)
    (h1 : self_address.subaddress_type = other.subaddress_type)
    (h2 : self_address.floor = other.floor)
    (h3 : self_address.building = other.building)
    (h4 : self_address.status ≠ other.status) :
    candidateRecord self_address self_id address_label tryInto address
      = some (MatchRecord.mk MatchStatus.Divergent address_label self_id
          (some other.object_id) none none none
          (some (self_address.status.fmtDebug ++ " not equal to "
            ++ other.status.fmtDebug))) := by
  unfold candidateRecord
  rw [ht]
  simp [coincident_eq, if_pos hid,
    secondaryMismatches_status_only self_address other h1 h2 h3 h4,
    AddressMatch.new, Mismatches.new, mismatchRender, Mismatch.status]

theorem candidateRecord_some {β : Type} (self_address : Address)
    (self_id : Int) (address_label : String) (tryInto : β → Option Address)
    (address : β) (r : MatchRecord)
    (h : candidateRecord self_address self_id address_label tryInto address
      = some r) :
    (r.match_status = MatchStatus.Matching
      ∨ r.match_status = MatchStatus.Divergent)
    ∧ r.other_id.isSome = true ∧ r.address_label = address_label
    ∧ r.self_id = self_id := by
  unfold candidateRecord at h
  split at h
  next other ht =>
    rcases hco : self_address.coincident other with ⟨cb, mm⟩
    rw [hco] at h
    cases cb with
    | false => simp at h
    | true =>
      cases mm with
      | none =>
        simp at h
        subst h
        exact ⟨Or.inl rfl, rfl, rfl, rfl⟩
      | some ms =>
        simp at h
        subst h
        exact ⟨Or.inr rfl, rfl, rfl, rfl⟩
  next ht => cases h

theorem filterMap_candidateRecord_status_divergent (a : Address) (self_id : Int)
    (address_label : String) (cs : List Address)
    (h : ∀ c ∈ cs, identityMatch a c ∧ a.subaddress_type = c.subaddress_type
        ∧ a.floor = c.floor ∧ a.building = c.building ∧ a.status ≠ c.status) :
    cs.filterMap (candidateRecord a self_id address_label some)
      = cs.map (fun c => MatchRecord.mk MatchStatus.Divergent address_label
          self_id (some c.object_id) none none none
          (some (a.status.fmtDebug ++ " not equal to " ++ c.status.fmtDebug))) := by
  induction cs with
  | nil => rfl
  | cons c cs ih =>
    obtain ⟨hid, h1, h2, h3, h4⟩ := h c (List.mem_cons_self c cs)
    rw [List.filterMap_cons, List.map_cons,
      candidateRecord_status_divergent a self_id address_label some c c rfl
        hid h1 h2 h3 h4,
      ih (fun x hx => h x (List.mem_cons_of_mem c hx))]

/-! ## Claim theorems -/

/-- C1: `Address.coincident` reports coincident exactly when all nine
identity fields (house number, suffix, pre-directional, street name,
post-type, subaddress identifier, zip code, postal community, state name)
agree under exact value equality with `none = none` equal; when
coincident, one `Mismatch` is appended per differing secondary field
(subaddress type, floor, building, status), all four always checked; when
not coincident the mismatch list is empty. -/
theorem coincident_identity_iff_mismatches (a b : Address) :
    ((a.coincident b).coincident = true ↔ identityMatch a b)
    ∧ mismatchFields (a.coincident b)
        = (if identityMatch a b then secondaryMismatches a b else []) := by
  rw [coincident_eq]
  by_cases h : identityMatch a b <;>
    simp [h, mismatchFields_new, coincident_of_new]

/-- C2 counterexample: classifying `exAddress` against two fully-equal
copies of itself yields two Matching records, which is none of the three
claimed shapes (one Matching record, only Divergent records, or one
Missing record). -/
theorem match_records_shape_counterexample :
    ¬ claimedShape
        (MatchRecords.new id some exAddress [exAddress, exAddress]).records := by
  decide

/-- C2 (amended): the record list produced by `MatchRecords::new` is never
empty; when no candidate both converts and is coincident it is exactly one
Missing record; otherwise it is the per-coincident-candidate record list,
in which every record is Matching or Divergent (several Matching records,
and mixes of Matching and Divergent records, are possible) and no record
is Missing. -/
theorem match_records_shape {α β : Type} (into : α → Address)
    (tryInto : β → Option Address) (sa : α) (cs : List β) :
    (MatchRecords.new into tryInto sa cs).records ≠ []
    ∧ (cs.filterMap (candidateRecord (into sa) (into sa).object_id
          (into sa).label tryInto) = []
        → (MatchRecords.new into tryInto sa cs).records
            = [missingRecord (into sa)])
    ∧ (cs.filterMap (candidateRecord (into sa) (into sa).object_id
          (into sa).label tryInto) ≠ []
        → (MatchRecords.new into tryInto sa cs).records
              = cs.filterMap (candidateRecord (into sa) (into sa).object_id
                  (into sa).label tryInto)
            ∧ ∀ r ∈ (MatchRecords.new into tryInto sa cs).records,
                r.match_status = MatchStatus.Matching
                ∨ r.match_status = MatchStatus.Divergent) := by
  have hrec := new_records_eq into tryInto sa cs
  by_cases h : cs.filterMap (candidateRecord (into sa) (into sa).object_id
      (into sa).label tryInto) = []
  · rw [if_pos (by simp [h])] at hrec
    exact ⟨by rw [hrec]; simp, fun _ => hrec, fun hne => absurd h hne⟩
  · rw [if_neg (by simp [h])] at hrec
    refine ⟨by rw [hrec]; exact h, fun he => absurd he h,
      fun _ => ⟨hrec, ?_⟩⟩
    intro r hr
    rw [hrec] at hr
    obtain ⟨c, hc, hcr⟩ := List.mem_filterMap.mp hr
    exact (candidateRecord_some _ _ _ _ _ _ hcr).1

/-- Witness for the amended C2 at a concrete input. -/
theorem match_records_shape_witness :
    (MatchRecords.new id some exAddress ([] : List Address)).records ≠ [] :=
  (match_records_shape id some exAddress []).1

/-- C3: when no candidate both converts and is coincident (in particular
for the empty candidate list), classification yields exactly one record,
with status Missing, the source's label and id, candidate id `none`, and
all four secondary-mismatch fields empty. -/
theorem missing_when_no_coincident_candidate {β : Type}
    (tryInto : β → Option Address) (a : Address) (cs : List β)
    (h : ∀ c ∈ cs, ∀ o, tryInto c = some o
      → (a.coincident o).coincident = false) :
    (MatchRecords.new id tryInto a cs).records
      = [MatchRecord.mk MatchStatus.Missing a.label a.object_id none
          none none none none] := by
  have hrec := new_records_eq id tryInto a cs
  simp only [id_eq] at hrec
  have hfm : cs.filterMap (candidateRecord a a.object_id a.label tryInto)
      = [] := by
    rw [List.filterMap_eq_nil_iff]
    intro c hc
    cases ht : tryInto c with
    | none => exact candidateRecord_conv_fail a a.object_id a.label tryInto c ht
    | some o =>
      refine candidateRecord_not_coincident a a.object_id a.label tryInto
        c o ht ?_
      intro hid
      have hco := h c hc o ht
      rw [coincident_eq, if_pos hid] at hco
      simp [coincident_of_new] at hco
  rw [hfm] at hrec
  simpa [missingRecord] using hrec

/-- Witness for C3 at the empty candidate list. -/
theorem missing_when_no_coincident_candidate_witness :
    (MatchRecords.new id some exAddress ([] : List Address)).records
      = [MatchRecord.mk MatchStatus.Missing exAddress.label
          exAddress.object_id none none none none none] :=
  missing_when_no_coincident_candidate some exAddress []
    (by intro c hc o ht; cases hc)

/-- C4: classifying a source address against exactly one candidate that
converts, is coincident, and agrees on all four secondary fields yields
exactly one Matching record whose `other_id` is that candidate's object
id and whose four secondary-mismatch fields are all empty. -/
theorem matching_single_candidate {β : Type} (tryInto : β → Option Address)
    (a o : Address) (c : β) (ht : tryInto c = some o)
    (hco : (a.coincident o).coincident = true)
    (h1 : a.subaddress_type = o.subaddress_type) (h2 : a.floor = o.floor)
    (h3 : a.building = o.building) (h4 : a.status = o.status) :
    (MatchRecords.new id tryInto a [c]).records
      = [MatchRecord.mk MatchStatus.Matching a.label a.object_id
          (some o.object_id) none none none none] := by
  have hid : identityMatch a o := by
    by_cases hid : identityMatch a o
    · exact hid
    · rw [coincident_eq, if_neg hid] at hco
      simp [coincident_of_new] at hco
  have hrec := new_records_eq id tryInto a [c]
  simp only [id_eq] at hrec
  rw [List.filterMap_cons,
    candidateRecord_matching a a.object_id a.label tryInto c o ht hid
      h1 h2 h3 h4,
    List.filterMap_nil] at hrec
  simpa using hrec

/-- Witness for C4 at a concrete coincident, fully-equal candidate. -/
theorem matching_single_candidate_witness :
    (MatchRecords.new id some exAddress [exAddressId2]).records
      = [MatchRecord.mk MatchStatus.Matching exAddress.label
          exAddress.object_id (some exAddressId2.object_id)
          none none none none] :=
  matching_single_candidate some exAddress exAddressId2 exAddressId2 rfl
    (by decide) rfl rfl rfl rfl

/-- C5: classifying a source address against one or more candidates that
are each coincident with it but each differ from it only in the status
field yields exactly one Divergent record per candidate, each with a
non-empty status field and empty subaddress-type, floor, and building
fields. -/
theorem divergent_status_only_candidates (a : Address) (cs : List Address)
    (hne : cs ≠ [])
    (h : ∀ c ∈ cs, identityMatch a c ∧ a.subaddress_type = c.subaddress_type
        ∧ a.floor = c.floor ∧ a.building = c.building
        ∧ a.status ≠ c.status) :
    (MatchRecords.new id some a cs).records.length = cs.length
    ∧ ∀ r ∈ (MatchRecords.new id some a cs).records,
        r.match_status = MatchStatus.Divergent ∧ r.status.isSome = true
        ∧ r.subaddress_type = none ∧ r.floor = none
        ∧ r.building = none := by
  have hrec := new_records_eq id some a cs
  simp only [id_eq] at hrec
  rw [filterMap_candidateRecord_status_divergent a a.object_id a.label cs h,
    if_neg (by simp [hne])] at hrec
  constructor
  · rw [hrec, List.length_map]
  · intro r hr
    rw [hrec] at hr
    obtain ⟨c, hc, hr⟩ := List.mem_map.mp hr
    subst hr
    exact ⟨rfl, rfl, rfl, rfl, rfl⟩

/-- Witness for C5 at two concrete status-divergent candidates. -/
theorem divergent_status_only_candidates_witness :
    (MatchRecords.new id some exAddress
        [exAddressRetired, exAddressPending]).records.length = 2
    ∧ ∀ r ∈ (MatchRecords.new id some exAddress
        [exAddressRetired, exAddressPending]).records,
        r.match_status = MatchStatus.Divergent ∧ r.status.isSome = true
        ∧ r.subaddress_type = none ∧ r.floor = none
        ∧ r.building = none :=
  divergent_status_only_candidates exAddress
    [exAddressRetired, exAddressPending] (by decide) (by decide)

/-- C6: a county source record converts to a canonical `Address` exactly
when its street-name post-type is present (an absent post-type yields a
conversion failure, not a defaulted address), and a candidate whose
conversion fails is silently skipped during classification: the result is
the same as if the candidate were not in the list at all. -/
theorem county_conversion_iff_and_skip {β : Type} (c : CountyAddress)
    (tryInto : β → Option Address) (a : Address) (b : β) (xs ys : List β)
    (hb : tryInto b = none) :
    ((Address.tryFromCounty c).isSome ↔ c.street_name_post_type.isSome)
    ∧ MatchRecords.new id tryInto a (xs ++ b :: ys)
        = MatchRecords.new id tryInto a (xs ++ ys) := by
  constructor
  · unfold Address.tryFromCounty
    cases c.street_name_post_type <;> simp
  · have hcb : candidateRecord a a.object_id a.label tryInto b = none :=
      candidateRecord_conv_fail a a.object_id a.label tryInto b hb
    have h1 := new_records_eq id tryInto a (xs ++ b :: ys)
    have h2 := new_records_eq id tryInto a (xs ++ ys)
    simp only [id_eq] at h1 h2
    have hfm : (xs ++ b :: ys).filterMap
          (candidateRecord a a.object_id a.label tryInto)
        = (xs ++ ys).filterMap
          (candidateRecord a a.object_id a.label tryInto) := by
      simp [List.filterMap_append, List.filterMap_cons, hcb]
    have hr : (MatchRecords.new id tryInto a (xs ++ b :: ys)).records
        = (MatchRecords.new id tryInto a (xs ++ ys)).records := by
      rw [h1, h2, hfm]
    exact congrArg MatchRecords.mk hr

/-- Witness for C6 at a concrete county record lacking a post-type. -/
theorem county_conversion_iff_and_skip_witness :
    ((Address.tryFromCounty exCountyNoPost).isSome
        ↔ exCountyNoPost.street_name_post_type.isSome)
    ∧ MatchRecords.new id Address.tryFromCounty exAddress [exCountyNoPost]
        = MatchRecords.new id Address.tryFromCounty exAddress [] :=
  county_conversion_iff_and_skip exCountyNoPost Address.tryFromCounty
    exAddress exCountyNoPost [] [] rfl

/-- C7 counterexample: for two addresses equal except in status, the two
call orders agree on the boolean result, but the mismatch value produced
by one order is absent from the mismatch list of the other (the rendered
message has the two disagreeing values in call order), so the mismatch
sets do not match. -/
theorem coincident_mismatch_sets_differ :
    ((exAddress.coincident exAddressRetired).coincident
        = (exAddressRetired.coincident exAddress).coincident)
    ∧ Mismatch.Status "Active not equal to Retired"
        ∈ mismatchFields (exAddress.coincident exAddressRetired)
    ∧ Mismatch.Status "Active not equal to Retired"
        ∉ mismatchFields (exAddressRetired.coincident exAddress) := by
  decide

/-- C7 (amended): coincidence is symmetric on the boolean result, and the
two orders mismatch on exactly the same secondary fields, in the same
order (the set of mismatched field categories matches); the carried
mismatch values, however, render the two disagreeing values in call
order, so the mismatch value sets are mirror images rather than equal. -/
theorem coincident_symm (a b : Address) :
    (a.coincident b).coincident = (b.coincident a).coincident
    ∧ (mismatchFields (a.coincident b)).map Mismatch.kind
        = (mismatchFields (b.coincident a)).map Mismatch.kind := by
  rw [coincident_eq a b, coincident_eq b a]
  by_cases h : identityMatch a b
  · have h' : identityMatch b a := (identityMatch_symm a b).mp h
    simp [h, h', mismatchFields_new, coincident_of_new,
      secondaryMismatches_kind_symm a b]
  · have h' : ¬ identityMatch b a := fun hba => h ((identityMatch_symm b a).mp hba)
    simp [h, h', mismatchFields_new, coincident_of_new]

/-- C8: `label` renders the number part (house number, optionally followed
by the suffix), then the street part (pre-directional when present, street
name, post-type, space-separated), then the subaddress part (type name
plus identifier when both exist, `#` plus identifier when only the
identifier exists, the type alone when only the type exists, omitted when
neither exists); in particular the spec's example renders as
"123 A MAIN Street Apartment 4". -/
theorem label_spec_and_example :
    (∀ a : Address, a.label = specLabel a)
    ∧ labelExample.label = "123 A MAIN Street Apartment 4" := by
  constructor
  · intro a
    unfold Address.label specLabel
    cases hsuf : a.address_number_suffix <;>
      cases hpre : a.street_name_pre_directional <;>
        cases hst : a.subaddress_type <;>
          cases hsi : a.subaddress_identifier <;>
            simp [hsuf, hpre, hst, hsi]
  · decide

/-- C9: the object id never participates in the comparison: replacing the
object ids of both addresses (hence of either one) leaves both the
boolean result and the mismatch list of `coincident` unchanged. -/
theorem object_id_never_participates (a b : Address) (i j : Int) :
    ({ a with object_id := i } : Address).coincident { b with object_id := j }
      = a.coincident b := rfl

/-- C10: in every record produced by `MatchRecords::new`, `other_id` is
`none` exactly when the record's status is Missing: Matching and
Divergent records carry the coincident candidate's object id, and the
Missing record never carries one. -/
theorem other_id_none_iff_missing {α β : Type} (into : α → Address)
    (tryInto : β → Option Address) (sa : α) (cs : List β) :
    ((MatchRecords.new into tryInto sa cs).records.all
      fun r => decide (r.other_id = none
        ↔ r.match_status = MatchStatus.Missing)) = true := by
  rw [List.all_eq_true]
  intro r hr
  rw [new_records_eq] at hr
  rw [decide_eq_true_eq]
  split at hr
  · rw [List.mem_singleton] at hr
    subst hr
    simp [missingRecord]
  · obtain ⟨c, hc, hcr⟩ := List.mem_filterMap.mp hr
    obtain ⟨hs, ho, -, -⟩ := candidateRecord_some _ _ _ _ _ _ hcr
    constructor
    · intro hnone
      rw [hnone] at ho
      simp at ho
    · intro hmiss
      rcases hs with hmat | hdiv
      · rw [hmiss] at hmat; simp at hmat
      · rw [hmiss] at hdiv; simp at hdiv
